import Mathlib

/-!
Verification of the ConnectToolCLI client (`src/main.go`).

The program is a command-line client: it parses a command token from the
argument list, issues exactly one synchronous gRPC call against the
ConnectToolService, and renders the structured response to standard output.

The embedding below mirrors `main.go` directly:
* response/request message types become Lean structures;
* the generated gRPC client interface (`ConnectToolServiceClient`) becomes a
  structure of functions, each taking the call context and the request and
  returning `Except GrpcErr response` (a test double of the remote service);
* each handler function (`createLobby`, `joinLobby`, ...) becomes a Lean
  function returning a `RunResult`: the lines printed to stdout, the lines
  printed to stderr (Go's `log` package writes to stderr), the process exit
  code, and the list of RPC calls issued together with the context each call
  was made with;
* `main` becomes `runCLI`, dispatching on the first positional argument
  exactly as the Go `switch` does.

Go conventions reflected in the model: `fmt.Printf("%v", b)` on a bool prints
`true`/`false`; `log.Fatalf` prints to stderr and exits with status 1;
`byte(x)` truncates to the low 8 bits, i.e. `x % 256`.
-/

/-- Call context: `context.WithTimeout(context.Background(), 5*time.Second)`.
Only the deadline is observable to the model. -/
structure Ctx where
  timeoutSeconds : Nat
deriving DecidableEq, Repr

/-- A transport / remote-side error as rendered by `%v` (e.g. the gRPC
status text, or `context deadline exceeded` for a timed-out call). -/
abbrev GrpcErr := String

/-- `%v` formatting of a Go bool. -/
def goBool (b : Bool) : String := if b then "true" else "false"

/-- Go `byte(x)`: truncation to the low 8 bits. -/
def goByte (x : Nat) : Nat := x % 256

/-- The IP rendering in `getVPNRoutingTable`:
`fmt.Sprintf("%d.%d.%d.%d", byte(v>>24), byte(v>>16), byte(v>>8), byte(v))`. -/
def ipToString (v : Nat) : String :=
  toString (goByte (v >>> 24)) ++ "." ++ toString (goByte (v >>> 16)) ++ "." ++
    toString (goByte (v >>> 8)) ++ "." ++ toString (goByte v)

/- ## Message types (request and response payloads) -/

structure CreateLobbyRequest where
deriving DecidableEq, Repr

structure CreateLobbyResponse where
  success : Bool
  lobbyId : String
deriving DecidableEq, Repr

structure JoinLobbyRequest where
  lobbyId : String
deriving DecidableEq, Repr

structure JoinLobbyResponse where
  success : Bool
  message : String
deriving DecidableEq, Repr

structure LeaveLobbyRequest where
deriving DecidableEq, Repr

structure LeaveLobbyResponse where
  success : Bool
deriving DecidableEq, Repr

structure GetLobbyInfoRequest where
deriving DecidableEq, Repr

/-- A participant in the current lobby. -/
structure LobbyMember where
  name : String
  steamId : String
  ping : Int
  relayInfo : String
deriving DecidableEq, Repr

structure GetLobbyInfoResponse where
  isInLobby : Bool
  lobbyId : String
  members : List LobbyMember
deriving DecidableEq, Repr

structure GetFriendLobbiesRequest where
deriving DecidableEq, Repr

structure FriendLobby where
  name : String
  steamId : String
  lobbyId : String
deriving DecidableEq, Repr

structure GetFriendLobbiesResponse where
  lobbies : List FriendLobby
deriving DecidableEq, Repr

structure InviteFriendRequest where
  friendSteamId : String
deriving DecidableEq, Repr

structure InviteFriendResponse where
  success : Bool
deriving DecidableEq, Repr

structure GetVPNStatusRequest where
deriving DecidableEq, Repr

/-- Traffic counters for the active VPN interface. -/
structure VPNStats where
  packetsSent : Nat
  packetsReceived : Nat
  packetsDropped : Nat
  bytesSent : Nat
  bytesReceived : Nat
deriving DecidableEq, Repr

structure GetVPNStatusResponse where
  enabled : Bool
  localIp : String
  deviceName : String
  stats : Option VPNStats
deriving DecidableEq, Repr

structure GetVPNRoutingTableRequest where
deriving DecidableEq, Repr

/-- One routing-table entry: 32-bit IP, interface name, is-local flag. -/
structure VPNRoute where
  ip : Nat
  name : String
  isLocal : Bool
deriving DecidableEq, Repr

structure GetVPNRoutingTableResponse where
  routes : List VPNRoute
deriving DecidableEq, Repr

/- ## The remote service interface (test double) -/

/-- The gRPC client interface: one method per RPC, each taking the call
context and the request message and returning either a transport/remote
error or the response message. A concrete value of this structure is a
test double of the remote service. -/
structure ConnectToolServiceClient where
  CreateLobby : Ctx → CreateLobbyRequest → Except GrpcErr CreateLobbyResponse
  JoinLobby : Ctx → JoinLobbyRequest → Except GrpcErr JoinLobbyResponse
  LeaveLobby : Ctx → LeaveLobbyRequest → Except GrpcErr LeaveLobbyResponse
  GetLobbyInfo : Ctx → GetLobbyInfoRequest → Except GrpcErr GetLobbyInfoResponse
  GetFriendLobbies : Ctx → GetFriendLobbiesRequest → Except GrpcErr GetFriendLobbiesResponse
  InviteFriend : Ctx → InviteFriendRequest → Except GrpcErr InviteFriendResponse
  GetVPNStatus : Ctx → GetVPNStatusRequest → Except GrpcErr GetVPNStatusResponse
  GetVPNRoutingTable : Ctx → GetVPNRoutingTableRequest →
    Except GrpcErr GetVPNRoutingTableResponse

/-- A record of one RPC issued against the service, with its argument. -/
inductive RpcCall where
  | createLobby
  | joinLobby (lobbyId : String)
  | leaveLobby
  | getLobbyInfo
  | getFriendLobbies
  | inviteFriend (friendSteamId : String)
  | getVPNStatus
  | getVPNRoutingTable
deriving DecidableEq, Repr

/-- Observable outcome of one process run: stdout lines, stderr lines,
exit code, and the RPC calls issued (with the context of each). -/
structure RunResult where
  stdout : List String
  stderr : List String
  exitCode : Nat
  calls : List (Ctx × RpcCall)
deriving DecidableEq, Repr

/-- Concatenate printed lines into the byte-for-byte stdout text
(each `fmt.Printf`/`fmt.Println` line ends in a newline). -/
def renderOut (lines : List String) : String :=
  lines.foldr (fun l acc => l ++ "\n" ++ acc) ""

/- ## Command handlers (the Request/Response Translator) -/

/-- `createLobby` from `main.go`. -/
def createLobby (ctx : Ctx) (client : ConnectToolServiceClient) : RunResult :=
  match client.CreateLobby ctx {} with
  | .error e =>
      { stdout := [], stderr := ["could not create lobby: " ++ e], exitCode := 1,
        calls := [(ctx, .createLobby)] }
  | .ok r =>
      { stdout := ["Success: " ++ goBool r.success ++ ", Lobby ID: " ++ r.lobbyId],
        stderr := [], exitCode := 0, calls := [(ctx, .createLobby)] }

/-- `joinLobby` from `main.go`. -/
def joinLobby (ctx : Ctx) (client : ConnectToolServiceClient) (lobbyID : String) :
    RunResult :=
  match client.JoinLobby ctx { lobbyId := lobbyID } with
  | .error e =>
      { stdout := [], stderr := ["could not join lobby: " ++ e], exitCode := 1,
        calls := [(ctx, .joinLobby lobbyID)] }
  | .ok r =>
      { stdout := ["Success: " ++ goBool r.success ++ ", Message: " ++ r.message],
        stderr := [], exitCode := 0, calls := [(ctx, .joinLobby lobbyID)] }

/-- `leaveLobby` from `main.go`. -/
def leaveLobby (ctx : Ctx) (client : ConnectToolServiceClient) : RunResult :=
  match client.LeaveLobby ctx {} with
  | .error e =>
      { stdout := [], stderr := ["could not leave lobby: " ++ e], exitCode := 1,
        calls := [(ctx, .leaveLobby)] }
  | .ok r =>
      { stdout := ["Success: " ++ goBool r.success], stderr := [], exitCode := 0,
        calls := [(ctx, .leaveLobby)] }

/-- One member line of `getLobbyInfo`. -/
def memberLine (m : LobbyMember) : String :=
  "  - Name: " ++ m.name ++ ", ID: " ++ m.steamId ++ ", Ping: " ++ toString m.ping ++
    ", Relay: " ++ m.relayInfo

/-- `getLobbyInfo` from `main.go`. -/
def getLobbyInfo (ctx : Ctx) (client : ConnectToolServiceClient) : RunResult :=
  match client.GetLobbyInfo ctx {} with
  | .error e =>
      { stdout := [], stderr := ["could not get lobby info: " ++ e], exitCode := 1,
        calls := [(ctx, .getLobbyInfo)] }
  | .ok r =>
      { stdout :=
          ["In Lobby: " ++ goBool r.isInLobby] ++
            (if r.isInLobby then
              ["Lobby ID: " ++ r.lobbyId, "Members:"] ++ r.members.map memberLine
            else []),
        stderr := [], exitCode := 0, calls := [(ctx, .getLobbyInfo)] }

/-- One friend-lobby line of `getFriendLobbies`. -/
def friendLobbyLine (l : FriendLobby) : String :=
  "  - Friend: " ++ l.name ++ " (" ++ l.steamId ++ "), Lobby: " ++ l.lobbyId

/-- `getFriendLobbies` from `main.go`. -/
def getFriendLobbies (ctx : Ctx) (client : ConnectToolServiceClient) : RunResult :=
  match client.GetFriendLobbies ctx {} with
  | .error e =>
      { stdout := [], stderr := ["could not get friend lobbies: " ++ e], exitCode := 1,
        calls := [(ctx, .getFriendLobbies)] }
  | .ok r =>
      { stdout := ["Friend Lobbies:"] ++ r.lobbies.map friendLobbyLine,
        stderr := [], exitCode := 0, calls := [(ctx, .getFriendLobbies)] }

/-- `inviteFriend` from `main.go`. -/
def inviteFriend (ctx : Ctx) (client : ConnectToolServiceClient) (friendID : String) :
    RunResult :=
  match client.InviteFriend ctx { friendSteamId := friendID } with
  | .error e =>
      { stdout := [], stderr := ["could not invite friend: " ++ e], exitCode := 1,
        calls := [(ctx, .inviteFriend friendID)] }
  | .ok r =>
      { stdout := ["Success: " ++ goBool r.success], stderr := [], exitCode := 0,
        calls := [(ctx, .inviteFriend friendID)] }

/-- The stats block of `getVPNStatus`, printed only when a stats payload
is present. -/
def statsLines (stats : Option VPNStats) : List String :=
  match stats with
  | none => []
  | some s =>
      ["Stats:",
       "  Sent: " ++ toString s.packetsSent ++ " pkts / " ++ toString s.bytesSent ++ " bytes",
       "  Recv: " ++ toString s.packetsReceived ++ " pkts / " ++
         toString s.bytesReceived ++ " bytes",
       "  Dropped: " ++ toString s.packetsDropped ++ " pkts"]

/-- `getVPNStatus` from `main.go`. -/
def getVPNStatus (ctx : Ctx) (client : ConnectToolServiceClient) : RunResult :=
  match client.GetVPNStatus ctx {} with
  | .error e =>
      { stdout := [], stderr := ["could not get VPN status: " ++ e], exitCode := 1,
        calls := [(ctx, .getVPNStatus)] }
  | .ok r =>
      { stdout :=
          ["Enabled: " ++ goBool r.enabled] ++
            (if r.enabled then
              ["Local IP: " ++ r.localIp, "Device: " ++ r.deviceName] ++ statsLines r.stats
            else []),
        stderr := [], exitCode := 0, calls := [(ctx, .getVPNStatus)] }

/-- One route line of `getVPNRoutingTable`. -/
def routeLine (route : VPNRoute) : String :=
  "  - IP: " ++ ipToString route.ip ++ ", Name: " ++ route.name ++ ", Local: " ++
    goBool route.isLocal

/-- `getVPNRoutingTable` from `main.go`. -/
def getVPNRoutingTable (ctx : Ctx) (client : ConnectToolServiceClient) : RunResult :=
  match client.GetVPNRoutingTable ctx {} with
  | .error e =>
      { stdout := [], stderr := ["could not get VPN routing table: " ++ e], exitCode := 1,
        calls := [(ctx, .getVPNRoutingTable)] }
  | .ok r =>
      { stdout := ["Routing Table:"] ++ r.routes.map routeLine,
        stderr := [], exitCode := 0, calls := [(ctx, .getVPNRoutingTable)] }

/- ## Dispatcher (`main` and `printUsage`) -/

/-- `defaultSocketPath` from `main.go`: branches on `runtime.GOOS`. -/
def defaultSocketPath (goos : String) : String :=
  if goos = "windows" then "connect_tool.sock" else "/tmp/connect_tool.sock"

/-- Modelled from the flag library: the output of `flag.PrintDefaults()` for
the single registered `-socket` flag, in Go's documented format. The flag
package writes these lines to standard error — the default output of
`flag.CommandLine`, which `main.go` never redirects. -/
def printDefaultsLines (goos : String) : List String :=
  ["  -socket string",
   "    \tPath to the Unix Domain Socket (default \"" ++ defaultSocketPath goos ++ "\")"]

/-- `printUsage` from `main.go`: its `fmt.Println` lines, which go to
standard output. The `flag.PrintDefaults()` call that follows writes to
standard error instead: see `printDefaultsLines`. -/
def usageLines : List String :=
  ["Usage: connecttoolcli [flags] <command> [args...]",
   "Commands:",
   "  create                   Create a new lobby",
   "  join <lobby_id>          Join a lobby",
   "  leave                    Leave current lobby",
   "  info                     Get current lobby info",
   "  friends                  List friend lobbies",
   "  invite <steam_id>        Invite a friend",
   "  vpn-status               Get VPN status",
   "  vpn-routes               Get VPN routing table",
   "Flags:"]

/-- The command tokens recognized by the `switch` in `main`. -/
def recognizedCommands : List String :=
  ["create", "join", "leave", "info", "friends", "invite", "vpn-status", "vpn-routes"]

/-- `main` from `main.go`, given the positional arguments `flag.Args()`
(the tokens left after flag parsing) and the service client. `goos` is
`runtime.GOOS`, used only for the socket-path default shown in usage text.
The `grpc.NewClient` step establishes no connection and issues no RPC; the
5-second context deadline is created before dispatch and passed to every
handler. -/
def runCLI (goos : String) (args : List String) (client : ConnectToolServiceClient) :
    RunResult :=
  match args with
  | [] => { stdout := usageLines, stderr := printDefaultsLines goos, exitCode := 1,
            calls := [] }
  | command :: rest =>
    let ctx : Ctx := { timeoutSeconds := 5 }
    match command with
    | "create" => createLobby ctx client
    | "join" =>
        match rest with
        | [] => { stdout := [], stderr := ["Usage: join <lobby_id>"], exitCode := 1,
                  calls := [] }
        | lobbyID :: _ => joinLobby ctx client lobbyID
    | "leave" => leaveLobby ctx client
    | "info" => getLobbyInfo ctx client
    | "friends" => getFriendLobbies ctx client
    | "invite" =>
        match rest with
        | [] => { stdout := [], stderr := ["Usage: invite <steam_id>"], exitCode := 1,
                  calls := [] }
        | friendID :: _ => inviteFriend ctx client friendID
    | "vpn-status" => getVPNStatus ctx client
    | "vpn-routes" => getVPNRoutingTable ctx client
    | _ =>
        { stdout := ["Unknown command: " ++ command] ++ usageLines,
          stderr := printDefaultsLines goos, exitCode := 1, calls := [] }

/- ## Reduction lemmas for the dispatcher -/

/-- The context built by `main` before dispatching. -/
def ctx5 : Ctx := { timeoutSeconds := 5 }

lemma runCLI_create (goos : String) (client : ConnectToolServiceClient)
    (rest : List String) :
    runCLI goos ("create" :: rest) client = createLobby ctx5 client := rfl

lemma runCLI_join (goos : String) (client : ConnectToolServiceClient)
    (lid : String) (rest : List String) :
    runCLI goos ("join" :: lid :: rest) client = joinLobby ctx5 client lid := rfl

lemma runCLI_join_missing (goos : String) (client : ConnectToolServiceClient) :
    runCLI goos ["join"] client =
      { stdout := [], stderr := ["Usage: join <lobby_id>"], exitCode := 1, calls := [] } := rfl

lemma runCLI_leave (goos : String) (client : ConnectToolServiceClient)
    (rest : List String) :
    runCLI goos ("leave" :: rest) client = leaveLobby ctx5 client := rfl

lemma runCLI_info (goos : String) (client : ConnectToolServiceClient)
    (rest : List String) :
    runCLI goos ("info" :: rest) client = getLobbyInfo ctx5 client := rfl

lemma runCLI_friends (goos : String) (client : ConnectToolServiceClient)
    (rest : List String) :
    runCLI goos ("friends" :: rest) client = getFriendLobbies ctx5 client := rfl

lemma runCLI_invite (goos : String) (client : ConnectToolServiceClient)
    (fid : String) (rest : List String) :
    runCLI goos ("invite" :: fid :: rest) client = inviteFriend ctx5 client fid := rfl

lemma runCLI_invite_missing (goos : String) (client : ConnectToolServiceClient) :
    runCLI goos ["invite"] client =
      { stdout := [], stderr := ["Usage: invite <steam_id>"], exitCode := 1, calls := [] } := rfl

lemma runCLI_vpn_status (goos : String) (client : ConnectToolServiceClient)
    (rest : List String) :
    runCLI goos ("vpn-status" :: rest) client = getVPNStatus ctx5 client := rfl

lemma runCLI_vpn_routes (goos : String) (client : ConnectToolServiceClient)
    (rest : List String) :
    runCLI goos ("vpn-routes" :: rest) client = getVPNRoutingTable ctx5 client := rfl

lemma runCLI_no_command (goos : String) (client : ConnectToolServiceClient) :
    runCLI goos [] client =
      { stdout := usageLines, stderr := printDefaultsLines goos, exitCode := 1,
        calls := [] } := rfl

lemma runCLI_unknown (goos : String) (client : ConnectToolServiceClient)
    (cmd : String) (rest : List String) (h : cmd ∉ recognizedCommands) :
    runCLI goos (cmd :: rest) client =
      { stdout := ("Unknown command: " ++ cmd) :: usageLines,
        stderr := printDefaultsLines goos, exitCode := 1, calls := [] } := by
  simp only [recognizedCommands, List.mem_cons, List.not_mem_nil, or_false] at h
  push_neg at h
  obtain ⟨h1, h2, h3, h4, h5, h6, h7, h8⟩ := h
  unfold runCLI
  split <;> simp_all

/- ## Spec-side definitions and concrete test doubles -/

/-- The spec's IP decoding formula, stated with the spec's own operations:
four big-endian octets `(v>>24)&0xFF`, `(v>>16)&0xFF`, `(v>>8)&0xFF`,
`v&0xFF`, joined with dots. For comparison with `ipToString`. -/
def specIpToString (v : Nat) : String :=
  toString ((v >>> 24) &&& 0xFF) ++ "." ++ toString ((v >>> 16) &&& 0xFF) ++ "." ++
    toString ((v >>> 8) &&& 0xFF) ++ "." ++ toString (v &&& 0xFF)

lemma and_255_eq_mod (x : Nat) : x &&& 255 = x % 256 := by
  have h := Nat.and_pow_two_sub_one_eq_mod x 8
  norm_num at h
  exact h

lemma ipToString_eq_spec (v : Nat) : ipToString v = specIpToString v := by
  simp [ipToString, specIpToString, goByte, and_255_eq_mod]

/-- The error message gRPC renders when the 5-second context deadline
elapses before the call completes. -/
def deadlineExceeded : GrpcErr := "context deadline exceeded"

/-- Test double returning canned successful responses. -/
def okClient : ConnectToolServiceClient where
  CreateLobby := fun _ _ => .ok { success := true, lobbyId := "L123" }
  JoinLobby := fun _ _ => .ok { success := false, message := "Lobby full" }
  LeaveLobby := fun _ _ => .ok { success := true }
  GetLobbyInfo := fun _ _ =>
    .ok { isInLobby := false, lobbyId := "IGNORED",
          members := [{ name := "Alice", steamId := "76561198000000001", ping := 42,
                        relayInfo := "relay-1" }] }
  GetFriendLobbies := fun _ _ => .ok { lobbies := [] }
  InviteFriend := fun _ _ => .ok { success := false }
  GetVPNStatus := fun _ _ =>
    .ok { enabled := false, localIp := "10.0.0.2", deviceName := "wg0",
          stats := some { packetsSent := 7, packetsReceived := 8, packetsDropped := 9,
                          bytesSent := 700, bytesReceived := 800 } }
  GetVPNRoutingTable := fun _ _ => .ok { routes := [] }

/-- Test double with one VPN route, an in-lobby info response with no
members, and an enabled VPN status without stats. -/
def inLobbyClient : ConnectToolServiceClient :=
  { okClient with
    GetLobbyInfo := fun _ _ =>
      .ok { isInLobby := true, lobbyId := "L7", members := [] }
    GetVPNStatus := fun _ _ =>
      .ok { enabled := true, localIp := "10.0.0.2", deviceName := "wg0", stats := none }
    GetVPNRoutingTable := fun _ _ =>
      .ok { routes := [{ ip := 0xC0A80001, name := "eth0", isLocal := true }] } }

/-- Test double on which every RPC fails with a deadline-exceeded error. -/
def errClient : ConnectToolServiceClient where
  CreateLobby := fun _ _ => .error deadlineExceeded
  JoinLobby := fun _ _ => .error deadlineExceeded
  LeaveLobby := fun _ _ => .error deadlineExceeded
  GetLobbyInfo := fun _ _ => .error deadlineExceeded
  GetFriendLobbies := fun _ _ => .error deadlineExceeded
  InviteFriend := fun _ _ => .error deadlineExceeded
  GetVPNStatus := fun _ _ => .error deadlineExceeded
  GetVPNRoutingTable := fun _ _ => .error deadlineExceeded

/- ## Claims -/

/-- C2: the `vpn-routes` handler prints a header line, then one line per route
in service order with the IP rendered in dotted-quad form by decoding the
32-bit value as four big-endian octets; the decoding agrees with the spec's
formula and maps 0xC0A80001 to 192.168.0.1, 0 to 0.0.0.0 and 0xFFFFFFFF to
255.255.255.255. -/
theorem C2_vpn_routes_rendering (goos : String) (client : ConnectToolServiceClient)
    (resp : GetVPNRoutingTableResponse)
    (h : client.GetVPNRoutingTable ctx5 {} = .ok resp) :
    (runCLI goos ["vpn-routes"] client).stdout =
      "Routing Table:" :: resp.routes.map routeLine ∧
    (runCLI goos ["vpn-routes"] client).exitCode = 0 ∧
    (∀ route : VPNRoute, routeLine route =
      "  - IP: " ++ specIpToString route.ip ++ ", Name: " ++ route.name ++
        ", Local: " ++ goBool route.isLocal) ∧
    ipToString 0xC0A80001 = "192.168.0.1" ∧
    ipToString 0x00000000 = "0.0.0.0" ∧
    ipToString 0xFFFFFFFF = "255.255.255.255" := by
  rw [runCLI_vpn_routes]
  unfold getVPNRoutingTable
  rw [h]
  refine ⟨rfl, rfl, ?_, by decide, by decide, by decide⟩
  intro route
  simp [routeLine, ipToString_eq_spec]

/-- Witness for C2: the client with one route `{ip := 0xC0A80001, name := "eth0",
isLocal := true}` yields the header followed by the expected route line. -/
theorem C2_vpn_routes_rendering_witness :
    inLobbyClient.GetVPNRoutingTable ctx5 {} =
      .ok { routes := [{ ip := 0xC0A80001, name := "eth0", isLocal := true }] } ∧
    (runCLI "linux" ["vpn-routes"] inLobbyClient).stdout =
      ["Routing Table:", "  - IP: 192.168.0.1, Name: eth0, Local: true"] := by
  refine ⟨rfl, ?_⟩
  have h := C2_vpn_routes_rendering "linux" inLobbyClient
    { routes := [{ ip := 0xC0A80001, name := "eth0", isLocal := true }] } rfl
  rw [h.1]
  decide

/-- C3: `create` against a service returning success with lobby id L123 prints
exactly the line `Success: true, Lobby ID: L123` with a trailing newline and
exits with status 0. -/
theorem C3_create_success_line (goos : String) (client : ConnectToolServiceClient)
    (h : client.CreateLobby ctx5 {} = .ok { success := true, lobbyId := "L123" }) :
    renderOut (runCLI goos ["create"] client).stdout = "Success: true, Lobby ID: L123\n" ∧
    (runCLI goos ["create"] client).stdout = ["Success: true, Lobby ID: L123"] ∧
    (runCLI goos ["create"] client).exitCode = 0 := by
  rw [runCLI_create]
  unfold createLobby
  rw [h]
  refine ⟨?_, by decide, rfl⟩
  decide

/-- Witness for C3 at the canned client. -/
theorem C3_create_success_line_witness :
    okClient.CreateLobby ctx5 {} = .ok { success := true, lobbyId := "L123" } ∧
    renderOut (runCLI "linux" ["create"] okClient).stdout =
      "Success: true, Lobby ID: L123\n" :=
  ⟨rfl, (C3_create_success_line "linux" okClient rfl).1⟩

/-- C10: with an empty friend-lobby list, `friends` prints exactly the header
`Friend Lobbies:`; with an empty route list, `vpn-routes` prints exactly the
header `Routing Table:`; both exit 0 with nothing on stderr. -/
theorem C10_empty_lists_header_only (goos : String) (client : ConnectToolServiceClient)
    (h1 : client.GetFriendLobbies ctx5 {} = .ok { lobbies := [] })
    (h2 : client.GetVPNRoutingTable ctx5 {} = .ok { routes := [] }) :
    runCLI goos ["friends"] client =
      { stdout := ["Friend Lobbies:"], stderr := [], exitCode := 0,
        calls := [(ctx5, .getFriendLobbies)] } ∧
    runCLI goos ["vpn-routes"] client =
      { stdout := ["Routing Table:"], stderr := [], exitCode := 0,
        calls := [(ctx5, .getVPNRoutingTable)] } := by
  rw [runCLI_friends, runCLI_vpn_routes]
  unfold getFriendLobbies getVPNRoutingTable
  rw [h1, h2]
  exact ⟨rfl, rfl⟩

/-- Witness for C10 at the canned client (empty lobbies and routes). -/
theorem C10_empty_lists_header_only_witness :
    okClient.GetFriendLobbies ctx5 {} = .ok { lobbies := [] } ∧
    (runCLI "linux" ["friends"] okClient).stdout = ["Friend Lobbies:"] := by
  refine ⟨rfl, ?_⟩
  rw [(C10_empty_lists_header_only "linux" okClient rfl rfl).1]

/-- C4: when the info response reports not-in-lobby, no lobby id line and no
member lines are printed regardless of member data in the response; when it
reports in-lobby with an empty member list, the lobby id line and the
`Members:` header print with zero member lines. -/
theorem C4_info_guarding (goos : String) (client : ConnectToolServiceClient)
    (resp : GetLobbyInfoResponse)
    (h : client.GetLobbyInfo ctx5 {} = .ok resp) :
    (resp.isInLobby = false →
      (runCLI goos ["info"] client).stdout = ["In Lobby: false"] ∧
      (runCLI goos ["info"] client).exitCode = 0) ∧
    (resp.isInLobby = true → resp.members = [] →
      (runCLI goos ["info"] client).stdout =
        ["In Lobby: true", "Lobby ID: " ++ resp.lobbyId, "Members:"] ∧
      (runCLI goos ["info"] client).exitCode = 0) := by
  rw [runCLI_info]
  unfold getLobbyInfo
  rw [h]
  constructor
  · intro hfalse
    simp [hfalse, goBool]
  · intro htrue hempty
    simp [htrue, hempty, goBool]

/-- Witness for C4: a not-in-lobby response that nevertheless carries one
member yields only the `In Lobby: false` line. -/
theorem C4_info_guarding_witness :
    okClient.GetLobbyInfo ctx5 {} =
      .ok { isInLobby := false, lobbyId := "IGNORED",
            members := [{ name := "Alice", steamId := "76561198000000001", ping := 42,
                          relayInfo := "relay-1" }] } ∧
    (runCLI "linux" ["info"] okClient).stdout = ["In Lobby: false"] :=
  ⟨rfl, ((C4_info_guarding "linux" okClient _ rfl).1 rfl).1⟩

/-- C5: when the vpn-status response has enabled false, no local IP, device
or stats lines print even if a nonzero stats payload is present; when enabled
is true, the local IP and device lines print, followed by the stats block
exactly when a stats payload is present (`statsLines none = []`). -/
theorem C5_vpn_status_guarding (goos : String) (client : ConnectToolServiceClient)
    (resp : GetVPNStatusResponse)
    (h : client.GetVPNStatus ctx5 {} = .ok resp) :
    (resp.enabled = false →
      (runCLI goos ["vpn-status"] client).stdout = ["Enabled: false"] ∧
      (runCLI goos ["vpn-status"] client).exitCode = 0) ∧
    (resp.enabled = true →
      (runCLI goos ["vpn-status"] client).stdout =
        ["Enabled: true", "Local IP: " ++ resp.localIp, "Device: " ++ resp.deviceName] ++
          statsLines resp.stats ∧
      (runCLI goos ["vpn-status"] client).exitCode = 0) ∧
    statsLines none = [] := by
  rw [runCLI_vpn_status]
  unfold getVPNStatus
  rw [h]
  refine ⟨?_, ?_, rfl⟩
  · intro hfalse
    simp [hfalse, goBool]
  · intro htrue
    simp [htrue, goBool]

/-- Witness for C5: a disabled-VPN response carrying nonzero stats renders as
the single `Enabled: false` line. -/
theorem C5_vpn_status_guarding_witness :
    okClient.GetVPNStatus ctx5 {} =
      .ok { enabled := false, localIp := "10.0.0.2", deviceName := "wg0",
            stats := some { packetsSent := 7, packetsReceived := 8, packetsDropped := 9,
                            bytesSent := 700, bytesReceived := 800 } } ∧
    (runCLI "linux" ["vpn-status"] okClient).stdout = ["Enabled: false"] :=
  ⟨rfl, ((C5_vpn_status_guarding "linux" okClient _ rfl).1 rfl).1⟩

/-- C7: a successfully received response whose semantic success flag is false
is not treated as an error: each success-flag handler renders it normally and
the process exits 0, independent of the flag's value. -/
theorem C7_semantic_failure_not_error (goos : String)
    (client : ConnectToolServiceClient) :
    (∀ r : CreateLobbyResponse, client.CreateLobby ctx5 {} = .ok r →
      runCLI goos ["create"] client =
        { stdout := ["Success: " ++ goBool r.success ++ ", Lobby ID: " ++ r.lobbyId],
          stderr := [], exitCode := 0, calls := [(ctx5, .createLobby)] }) ∧
    (∀ (lid : String) (r : JoinLobbyResponse),
      client.JoinLobby ctx5 { lobbyId := lid } = .ok r →
      runCLI goos ["join", lid] client =
        { stdout := ["Success: " ++ goBool r.success ++ ", Message: " ++ r.message],
          stderr := [], exitCode := 0, calls := [(ctx5, .joinLobby lid)] }) ∧
    (∀ r : LeaveLobbyResponse, client.LeaveLobby ctx5 {} = .ok r →
      runCLI goos ["leave"] client =
        { stdout := ["Success: " ++ goBool r.success], stderr := [], exitCode := 0,
          calls := [(ctx5, .leaveLobby)] }) ∧
    (∀ (fid : String) (r : InviteFriendResponse),
      client.InviteFriend ctx5 { friendSteamId := fid } = .ok r →
      runCLI goos ["invite", fid] client =
        { stdout := ["Success: " ++ goBool r.success], stderr := [], exitCode := 0,
          calls := [(ctx5, .inviteFriend fid)] }) := by
  refine ⟨?_, ?_, ?_, ?_⟩
  · intro r h
    rw [runCLI_create]
    unfold createLobby
    rw [h]
  · intro lid r h
    rw [runCLI_join]
    unfold joinLobby
    rw [h]
  · intro r h
    rw [runCLI_leave]
    unfold leaveLobby
    rw [h]
  · intro fid r h
    rw [runCLI_invite]
    unfold inviteFriend
    rw [h]

/-- Witness for C7: a join response with success false and message
`Lobby full` renders normally and exits 0. -/
theorem C7_semantic_failure_not_error_witness :
    okClient.JoinLobby ctx5 { lobbyId := "L9" } =
      .ok { success := false, message := "Lobby full" } ∧
    runCLI "linux" ["join", "L9"] okClient =
      { stdout := ["Success: false, Message: Lobby full"], stderr := [], exitCode := 0,
        calls := [(ctx5, .joinLobby "L9")] } := by
  refine ⟨rfl, ?_⟩
  have h := (C7_semantic_failure_not_error "linux" okClient).2.1 "L9"
    { success := false, message := "Lobby full" } rfl
  rw [h]
  decide

/-- C6: for every command handler, a failed remote call terminates the run
with exit status 1 and a descriptive stderr message; nothing is printed to
stdout and exactly one call was made (no retry). -/
theorem C6_remote_error_fatal (goos : String) (client : ConnectToolServiceClient)
    (e : GrpcErr) :
    (client.CreateLobby ctx5 {} = .error e →
      runCLI goos ["create"] client =
        { stdout := [], stderr := ["could not create lobby: " ++ e], exitCode := 1,
          calls := [(ctx5, .createLobby)] }) ∧
    (∀ lid, client.JoinLobby ctx5 { lobbyId := lid } = .error e →
      runCLI goos ["join", lid] client =
        { stdout := [], stderr := ["could not join lobby: " ++ e], exitCode := 1,
          calls := [(ctx5, .joinLobby lid)] }) ∧
    (client.LeaveLobby ctx5 {} = .error e →
      runCLI goos ["leave"] client =
        { stdout := [], stderr := ["could not leave lobby: " ++ e], exitCode := 1,
          calls := [(ctx5, .leaveLobby)] }) ∧
    (client.GetLobbyInfo ctx5 {} = .error e →
      runCLI goos ["info"] client =
        { stdout := [], stderr := ["could not get lobby info: " ++ e], exitCode := 1,
          calls := [(ctx5, .getLobbyInfo)] }) ∧
    (client.GetFriendLobbies ctx5 {} = .error e →
      runCLI goos ["friends"] client =
        { stdout := [], stderr := ["could not get friend lobbies: " ++ e], exitCode := 1,
          calls := [(ctx5, .getFriendLobbies)] }) ∧
    (∀ fid, client.InviteFriend ctx5 { friendSteamId := fid } = .error e →
      runCLI goos ["invite", fid] client =
        { stdout := [], stderr := ["could not invite friend: " ++ e], exitCode := 1,
          calls := [(ctx5, .inviteFriend fid)] }) ∧
    (client.GetVPNStatus ctx5 {} = .error e →
      runCLI goos ["vpn-status"] client =
        { stdout := [], stderr := ["could not get VPN status: " ++ e], exitCode := 1,
          calls := [(ctx5, .getVPNStatus)] }) ∧
    (client.GetVPNRoutingTable ctx5 {} = .error e →
      runCLI goos ["vpn-routes"] client =
        { stdout := [], stderr := ["could not get VPN routing table: " ++ e],
          exitCode := 1, calls := [(ctx5, .getVPNRoutingTable)] }) := by
  refine ⟨?_, ?_, ?_, ?_, ?_, ?_, ?_, ?_⟩
  · intro h
    rw [runCLI_create]
    unfold createLobby
    rw [h]
  · intro lid h
    rw [runCLI_join]
    unfold joinLobby
    rw [h]
  · intro h
    rw [runCLI_leave]
    unfold leaveLobby
    rw [h]
  · intro h
    rw [runCLI_info]
    unfold getLobbyInfo
    rw [h]
  · intro h
    rw [runCLI_friends]
    unfold getFriendLobbies
    rw [h]
  · intro fid h
    rw [runCLI_invite]
    unfold inviteFriend
    rw [h]
  · intro h
    rw [runCLI_vpn_status]
    unfold getVPNStatus
    rw [h]
  · intro h
    rw [runCLI_vpn_routes]
    unfold getVPNRoutingTable
    rw [h]

/-- Witness for C6: on the always-failing client, `create` exits 1 with the
descriptive message, an empty stdout and a single recorded call. -/
theorem C6_remote_error_fatal_witness :
    errClient.CreateLobby ctx5 {} = .error deadlineExceeded ∧
    runCLI "linux" ["create"] errClient =
      { stdout := [],
        stderr := ["could not create lobby: " ++ deadlineExceeded], exitCode := 1,
        calls := [(ctx5, .createLobby)] } :=
  ⟨rfl, (C6_remote_error_fatal "linux" errClient deadlineExceeded).1 rfl⟩

lemma calls_le_one (goos : String) (args : List String)
    (client : ConnectToolServiceClient) :
    (runCLI goos args client).calls.length ≤ 1 := by
  rcases args with _ | ⟨cmd, rest⟩
  · simp [runCLI_no_command]
  · by_cases h1 : cmd = "create"
    · subst h1; rw [runCLI_create]; unfold createLobby
      cases client.CreateLobby ctx5 {} <;> simp
    · by_cases h2 : cmd = "join"
      · subst h2
        rcases rest with _ | ⟨lid, rest'⟩
        · simp [runCLI_join_missing]
        · rw [runCLI_join]; unfold joinLobby
          cases client.JoinLobby ctx5 { lobbyId := lid } <;> simp
      · by_cases h3 : cmd = "leave"
        · subst h3; rw [runCLI_leave]; unfold leaveLobby
          cases client.LeaveLobby ctx5 {} <;> simp
        · by_cases h4 : cmd = "info"
          · subst h4; rw [runCLI_info]; unfold getLobbyInfo
            cases client.GetLobbyInfo ctx5 {} <;> simp
          · by_cases h5 : cmd = "friends"
            · subst h5; rw [runCLI_friends]; unfold getFriendLobbies
              cases client.GetFriendLobbies ctx5 {} <;> simp
            · by_cases h6 : cmd = "invite"
              · subst h6
                rcases rest with _ | ⟨fid, rest'⟩
                · simp [runCLI_invite_missing]
                · rw [runCLI_invite]; unfold inviteFriend
                  cases client.InviteFriend ctx5 { friendSteamId := fid } <;> simp
              · by_cases h7 : cmd = "vpn-status"
                · subst h7; rw [runCLI_vpn_status]; unfold getVPNStatus
                  cases client.GetVPNStatus ctx5 {} <;> simp
                · by_cases h8 : cmd = "vpn-routes"
                  · subst h8; rw [runCLI_vpn_routes]; unfold getVPNRoutingTable
                    cases client.GetVPNRoutingTable ctx5 {} <;> simp
                  · rw [runCLI_unknown goos client cmd rest ?_]
                    · simp
                    · simp [recognizedCommands, h1, h2, h3, h4, h5, h6, h7, h8]

/-- C8: every handler issues exactly one synchronous remote call, made with
the 5-second-deadline context created when the command begins executing; no
invocation ever makes more than one call, and a call failing with the
deadline-exceeded error yields exit status 1 rather than any output. -/
theorem C8_single_call_deadline (goos : String) (client : ConnectToolServiceClient)
    (lid fid : String) :
    ctx5.timeoutSeconds = 5 ∧
    (runCLI goos ["create"] client).calls.map Prod.fst = [ctx5] ∧
    (runCLI goos ["join", lid] client).calls.map Prod.fst = [ctx5] ∧
    (runCLI goos ["leave"] client).calls.map Prod.fst = [ctx5] ∧
    (runCLI goos ["info"] client).calls.map Prod.fst = [ctx5] ∧
    (runCLI goos ["friends"] client).calls.map Prod.fst = [ctx5] ∧
    (runCLI goos ["invite", fid] client).calls.map Prod.fst = [ctx5] ∧
    (runCLI goos ["vpn-status"] client).calls.map Prod.fst = [ctx5] ∧
    (runCLI goos ["vpn-routes"] client).calls.map Prod.fst = [ctx5] ∧
    (∀ args, (runCLI goos args client).calls.length ≤ 1) ∧
    (client.CreateLobby ctx5 {} = .error deadlineExceeded →
      (runCLI goos ["create"] client).exitCode = 1 ∧
      (runCLI goos ["create"] client).stdout = []) := by
  refine ⟨rfl, ?_, ?_, ?_, ?_, ?_, ?_, ?_, ?_, fun args => calls_le_one goos args client, ?_⟩
  · rw [runCLI_create]; unfold createLobby
    cases client.CreateLobby ctx5 {} <;> rfl
  · rw [runCLI_join]; unfold joinLobby
    cases client.JoinLobby ctx5 { lobbyId := lid } <;> rfl
  · rw [runCLI_leave]; unfold leaveLobby
    cases client.LeaveLobby ctx5 {} <;> rfl
  · rw [runCLI_info]; unfold getLobbyInfo
    cases client.GetLobbyInfo ctx5 {} <;> rfl
  · rw [runCLI_friends]; unfold getFriendLobbies
    cases client.GetFriendLobbies ctx5 {} <;> rfl
  · rw [runCLI_invite]; unfold inviteFriend
    cases client.InviteFriend ctx5 { friendSteamId := fid } <;> rfl
  · rw [runCLI_vpn_status]; unfold getVPNStatus
    cases client.GetVPNStatus ctx5 {} <;> rfl
  · rw [runCLI_vpn_routes]; unfold getVPNRoutingTable
    cases client.GetVPNRoutingTable ctx5 {} <;> rfl
  · intro h
    rw [runCLI_create]
    unfold createLobby
    rw [h]
    exact ⟨rfl, rfl⟩

/-- Witness for C8: on the always-timing-out client, `create` makes exactly
one call with the 5-second context and exits 1. -/
theorem C8_single_call_deadline_witness :
    errClient.CreateLobby ctx5 {} = .error deadlineExceeded ∧
    (runCLI "linux" ["create"] errClient).calls.map Prod.fst = [ctx5] ∧
    (runCLI "linux" ["create"] errClient).exitCode = 1 := by
  have h := C8_single_call_deadline "linux" errClient "L1" "F1"
  exact ⟨rfl, h.2.1, (h.2.2.2.2.2.2.2.2.2.2 rfl).1⟩

/-- C1 counterexample: invoking `join` without its required argument exits 1
with no remote call, but the output is only the one-line
`Usage: join <lobby_id>` stderr message — the usage listing enumerating all
commands (which contains the `create` line) is not printed. -/
theorem C1_counterexample :
    (runCLI "linux" ["join"] okClient).exitCode = 1 ∧
    (runCLI "linux" ["join"] okClient).calls = [] ∧
    (runCLI "linux" ["join"] okClient).stdout = [] ∧
    (runCLI "linux" ["join"] okClient).stderr = ["Usage: join <lobby_id>"] ∧
    "  create                   Create a new lobby" ∈ usageLines ∧
    "  create                   Create a new lobby" ∉
      (runCLI "linux" ["join"] okClient).stdout ++
        (runCLI "linux" ["join"] okClient).stderr := by
  decide

/-- C1 (amended): with no command token or an unrecognized one, the process
prints the full usage listing — which enumerates all eight commands — and
exits 1 with no remote call; for `join` and `invite` invoked without their
required positional argument the process also exits 1 with no remote call,
but prints only a one-line command-specific usage message to stderr. -/
theorem C1_usage_failures (goos : String) (client : ConnectToolServiceClient) :
    runCLI goos [] client =
      { stdout := usageLines, stderr := printDefaultsLines goos, exitCode := 1,
        calls := [] } ∧
    (∀ cmd rest, cmd ∉ recognizedCommands →
      runCLI goos (cmd :: rest) client =
        { stdout := ("Unknown command: " ++ cmd) :: usageLines,
          stderr := printDefaultsLines goos, exitCode := 1, calls := [] }) ∧
    runCLI goos ["join"] client =
      { stdout := [], stderr := ["Usage: join <lobby_id>"], exitCode := 1,
        calls := [] } ∧
    runCLI goos ["invite"] client =
      { stdout := [], stderr := ["Usage: invite <steam_id>"], exitCode := 1,
        calls := [] } ∧
    (∀ cmd ∈ recognizedCommands, ∃ l ∈ usageLines, ∃ tl,
      l = "  " ++ cmd ++ tl) ∧
    (∃ tl, printDefaultsLines goos = "  -socket string" :: tl) := by
  refine ⟨runCLI_no_command goos client, runCLI_unknown goos client, rfl, rfl, ?_,
    ⟨_, rfl⟩⟩
  intro cmd hcmd
  simp only [recognizedCommands, List.mem_cons, List.not_mem_nil, or_false] at hcmd
  rcases hcmd with rfl | rfl | rfl | rfl | rfl | rfl | rfl | rfl
  · exact ⟨"  create                   Create a new lobby", by simp [usageLines],
      "                   Create a new lobby", by decide⟩
  · exact ⟨"  join <lobby_id>          Join a lobby", by simp [usageLines],
      " <lobby_id>          Join a lobby", by decide⟩
  · exact ⟨"  leave                    Leave current lobby", by simp [usageLines],
      "                    Leave current lobby", by decide⟩
  · exact ⟨"  info                     Get current lobby info", by simp [usageLines],
      "                     Get current lobby info", by decide⟩
  · exact ⟨"  friends                  List friend lobbies", by simp [usageLines],
      "                  List friend lobbies", by decide⟩
  · exact ⟨"  invite <steam_id>        Invite a friend", by simp [usageLines],
      " <steam_id>        Invite a friend", by decide⟩
  · exact ⟨"  vpn-status               Get VPN status", by simp [usageLines],
      "               Get VPN status", by decide⟩
  · exact ⟨"  vpn-routes               Get VPN routing table", by simp [usageLines],
      "               Get VPN routing table", by decide⟩

/-- Witness for C1 (amended): the unrecognized command `frobnicate` prints
the unknown-command line plus the full usage listing, and the listing
enumerates `join`. -/
theorem C1_usage_failures_witness :
    "frobnicate" ∉ recognizedCommands ∧
    runCLI "linux" ("frobnicate" :: []) okClient =
      { stdout := ("Unknown command: " ++ "frobnicate") :: usageLines,
        stderr := printDefaultsLines "linux", exitCode := 1, calls := [] } ∧
    "join" ∈ recognizedCommands ∧
    (∃ l ∈ usageLines, ∃ tl, l = "  " ++ "join" ++ tl) :=
  ⟨by decide, (C1_usage_failures "linux" okClient).2.1 "frobnicate" [] (by decide),
   by decide, (C1_usage_failures "linux" okClient).2.2.2.2.1 "join" (by decide)⟩

/-- C9 counterexample: the dispatcher supports eight commands, so with one
request/response pair per supported command the exercised interface has
eight pairs, not nine. -/
theorem C9_counterexample :
    recognizedCommands.length = 8 ∧ ¬ recognizedCommands.length = 9 := by decide

/-- C9 (amended): the remote interface exercised by the client consists of
eight request/response pairs, one per supported command; the dispatcher
recognizes exactly the listed commands (everything else issues no call), and
each recognized command maps to exactly one, pairwise-distinct request
variant. -/
theorem C9_eight_commands (goos : String) (client : ConnectToolServiceClient)
    (lid fid : String) :
    recognizedCommands =
      ["create", "join", "leave", "info", "friends", "invite", "vpn-status",
       "vpn-routes"] ∧
    recognizedCommands.length = 8 ∧
    recognizedCommands.Nodup ∧
    (∀ cmd rest, cmd ∉ recognizedCommands →
      (runCLI goos (cmd :: rest) client).calls = []) ∧
    (runCLI goos ["create"] client).calls.map Prod.snd = [RpcCall.createLobby] ∧
    (runCLI goos ["join", lid] client).calls.map Prod.snd = [RpcCall.joinLobby lid] ∧
    (runCLI goos ["leave"] client).calls.map Prod.snd = [RpcCall.leaveLobby] ∧
    (runCLI goos ["info"] client).calls.map Prod.snd = [RpcCall.getLobbyInfo] ∧
    (runCLI goos ["friends"] client).calls.map Prod.snd = [RpcCall.getFriendLobbies] ∧
    (runCLI goos ["invite", fid] client).calls.map Prod.snd =
      [RpcCall.inviteFriend fid] ∧
    (runCLI goos ["vpn-status"] client).calls.map Prod.snd = [RpcCall.getVPNStatus] ∧
    (runCLI goos ["vpn-routes"] client).calls.map Prod.snd =
      [RpcCall.getVPNRoutingTable] ∧
    [RpcCall.createLobby, RpcCall.joinLobby lid, RpcCall.leaveLobby,
     RpcCall.getLobbyInfo, RpcCall.getFriendLobbies, RpcCall.inviteFriend fid,
     RpcCall.getVPNStatus, RpcCall.getVPNRoutingTable].Nodup := by
  refine ⟨rfl, rfl, by decide, ?_, ?_, ?_, ?_, ?_, ?_, ?_, ?_, ?_, ?_⟩
  · intro cmd rest h
    rw [runCLI_unknown goos client cmd rest h]
  · rw [runCLI_create]; unfold createLobby
    cases client.CreateLobby ctx5 {} <;> rfl
  · rw [runCLI_join]; unfold joinLobby
    cases client.JoinLobby ctx5 { lobbyId := lid } <;> rfl
  · rw [runCLI_leave]; unfold leaveLobby
    cases client.LeaveLobby ctx5 {} <;> rfl
  · rw [runCLI_info]; unfold getLobbyInfo
    cases client.GetLobbyInfo ctx5 {} <;> rfl
  · rw [runCLI_friends]; unfold getFriendLobbies
    cases client.GetFriendLobbies ctx5 {} <;> rfl
  · rw [runCLI_invite]; unfold inviteFriend
    cases client.InviteFriend ctx5 { friendSteamId := fid } <;> rfl
  · rw [runCLI_vpn_status]; unfold getVPNStatus
    cases client.GetVPNStatus ctx5 {} <;> rfl
  · rw [runCLI_vpn_routes]; unfold getVPNRoutingTable
    cases client.GetVPNRoutingTable ctx5 {} <;> rfl
  · simp

/-- Witness for C9 (amended): the unrecognized command `ping` issues no call,
and `join L1` issues exactly the join request variant. -/
theorem C9_eight_commands_witness :
    "ping" ∉ recognizedCommands ∧
    (runCLI "linux" ("ping" :: []) okClient).calls = [] ∧
    (runCLI "linux" ["join", "L1"] okClient).calls.map Prod.snd =
      [RpcCall.joinLobby "L1"] := by
  have h := C9_eight_commands "linux" okClient "L1" "F1"
  exact ⟨by decide, h.2.2.2.1 "ping" [] (by decide), h.2.2.2.2.2.1⟩
